import Mathlib

/-!
Verification of the real-time notification subsystem of the
frontend-ptracker repository.

The subsystem under study lives in two source files:
* `NotificationContext` / `NotificationProvider` (the Store, the
  Read-State Synchronizer and the SSE lifecycle controller), and
* `notificationService` (the REST wrapper and the SSE transport client).

The embedding below translates the state held by the provider
(`notifications`, `unreadCount`, `eventSourceRef`) and each operation
that mutates it.  Backend calls are modelled by an explicit success or
failure argument; the JSON parse performed by the platform is modelled
by its outcome (`Option NotificationRecord`).  User-visible error
reporting (toast or console logging inside a catch block) is modelled
as a Bool component of the result.
-/

/-- Read state of a notification record: the `status` field takes the
string values UNREAD or READ in the source. -/
inductive Status where
  | UNREAD
  | READ
deriving DecidableEq, Repr

/-- A notification record as handled by the provider: the code reads
`notificationId`, `status`, `message`, `priority` and `actionRequired`. -/
structure NotificationRecord where
  notificationId : Nat
  message : String
  priority : String
  actionRequired : Bool
  status : Status
deriving DecidableEq, Repr

/-- The Store part of the provider state:
`const [notifications, setNotifications] = useState([])` and
`const [unreadCount, setUnreadCount] = useState(0)`. -/
structure NotificationState where
  notifications : List NotificationRecord
  unreadCount : Int
deriving DecidableEq, Repr

/-- Initial store: empty list, zero counter. -/
def emptyStore : NotificationState :=
  { notifications := [], unreadCount := 0 }

/-- `notifList.filter((n) => n.status === UNREAD).length`, the unread
count recomputation used by `loadNotifications`. -/
def countUnread (l : List NotificationRecord) : Nat :=
  (l.filter (fun n => n.status == Status.UNREAD)).length

/-- The on-message handler body inside `startSSEStream`:
`setNotifications((prev) => [newNotification, ...prev])` and
`setUnreadCount((prev) => prev + 1)`.  The toast it may additionally
show is display-only and carries no store state. -/
def ingest (s : NotificationState) (newNotification : NotificationRecord) :
    NotificationState :=
  { notifications := newNotification :: s.notifications,
    unreadCount := s.unreadCount + 1 }

/-- `n.notificationId === notifId ? { ...n, status: READ } : n`, the
per-record function mapped over the list by `markAsRead`. -/
def setReadIfMatch (notifId : Nat) (n : NotificationRecord) :
    NotificationRecord :=
  if n.notificationId == notifId then { n with status := Status.READ } else n

/-- The local reconciliation performed by `markAsRead` after the backend
call succeeds: map `setReadIfMatch` over the list and
`setUnreadCount((prev) => Math.max(0, prev - 1))`. -/
def markAsReadApply (s : NotificationState) (notifId : Nat) :
    NotificationState :=
  { notifications := s.notifications.map (setReadIfMatch notifId),
    unreadCount := max 0 (s.unreadCount - 1) }

/-- The Synchronizer operation `markAsRead(notifId)`: it awaits
`notificationService.markAsRead(notifId)`; on success it applies the
local reconciliation, on failure the catch block shows an error toast
and the store is not touched.  The Bool argument is the outcome of the
backend call, the Bool result records whether the error toast was
shown. -/
def markAsRead (s : NotificationState) (notifId : Nat) (backendOk : Bool) :
    NotificationState × Bool :=
  if backendOk then (markAsReadApply s notifId, false) else (s, true)

/-- `(n) => ({ ...n, status: READ })`, mapped over the list by
`markAllAsRead`. -/
def setRead (n : NotificationRecord) : NotificationRecord :=
  { n with status := Status.READ }

/-- The local reconciliation performed by `markAllAsRead` after the
backend call succeeds: every record is set to READ and the counter is
reset to zero. -/
def markAllAsReadApply (s : NotificationState) : NotificationState :=
  { notifications := s.notifications.map setRead,
    unreadCount := 0 }

/-- The Synchronizer operation `markAllAsRead()`: awaits the bulk
backend call; on success applies the local reconciliation, on failure
shows an error toast and leaves the store unchanged. -/
def markAllAsRead (s : NotificationState) (backendOk : Bool) :
    NotificationState × Bool :=
  if backendOk then (markAllAsReadApply s, false) else (s, true)

/-- Shape of the snapshot response: the code extracts the list with
`data?.content || data || []`, accepting a paginated object, a plain
array, or a null body. -/
inductive SnapshotData where
  | paginated (content : List NotificationRecord)
  | plain (records : List NotificationRecord)
  | null
deriving Repr

/-- `data?.content || data || []` (a JS array is truthy even when
empty, so a present `content` array is always taken). -/
def snapshotList : SnapshotData → List NotificationRecord
  | SnapshotData.paginated content => content
  | SnapshotData.plain records => records
  | SnapshotData.null => []

/-- `loadNotifications`: on a successful fetch it replaces the list
with the extracted page and recomputes the unread count from scratch;
on a failed fetch the catch block logs the error and the store setters
are never called.  The Bool result records whether the error was
reported (console logging in the catch block). -/
def loadNotifications (s : NotificationState)
    (fetch : Except Unit SnapshotData) : NotificationState × Bool :=
  match fetch with
  | Except.ok data =>
      let notifList := snapshotList data
      ({ notifications := notifList,
         unreadCount := (countUnread notifList : Int) }, false)
  | Except.error _ => (s, true)

/-- The per-message handler installed by `subscribeToStream`:
`try { const n = JSON.parse(event.data); onMessage(n) } catch { log }`.
The platform JSON parse is modelled by its outcome; the result is the
list of records delivered to the `onMessage` callback together with a
flag recording whether the parse failure was logged. -/
def streamOnMessage (parsedData : Option NotificationRecord) :
    List NotificationRecord × Bool :=
  match parsedData with
  | some notification => ([notification], false)
  | none => ([], true)

/-!
SSE lifecycle controller.  `eventSourceRef.current` holds the handle of
the current EventSource or null.  To reason about how many transport
connections are live we give every EventSource a fresh identifier and
track the set of identifiers that have been opened and not yet closed,
together with the visible events of each operation.
-/

/-- Observable actions of the lifecycle operations: opening a
connection, closing one, or invoking the error callback. -/
inductive SSEEvent where
  | opened (h : Nat)
  | closed (h : Nat)
  | errorCb
deriving DecidableEq, Repr

/-- Controller state: the stored handle (`eventSourceRef.current`), the
identifiers of connections that are currently open, a fresh-identifier
counter, and the notification store the provider also holds. -/
structure ControllerState where
  eventSource : Option Nat
  openConns : List Nat
  nextId : Nat
  store : NotificationState
deriving DecidableEq, Repr

/-- `stopSSEStream`: if a handle is stored, close it and null the ref;
otherwise do nothing. -/
def stopSSEStream (s : ControllerState) : ControllerState × List SSEEvent :=
  match s.eventSource with
  | some h =>
      ({ s with eventSource := none, openConns := s.openConns.erase h },
       [SSEEvent.closed h])
  | none => (s, [])

/-- `startSSEStream`: first `stopSSEStream()` closes any existing
connection, then the token is read from storage; with no token the
function returns, otherwise `subscribeToStream` opens a new EventSource
which becomes the stored handle. -/
def startSSEStream (s : ControllerState) (token : Option String) :
    ControllerState × List SSEEvent :=
  let p := stopSSEStream s
  match token with
  | none => p
  | some _ =>
      let h := p.1.nextId
      ({ p.1 with
          eventSource := some h,
          openConns := h :: p.1.openConns,
          nextId := p.1.nextId + 1 },
       p.2 ++ [SSEEvent.opened h])

/-- Operations the provider performs on the transport lifecycle. -/
inductive CtlOp where
  | start (token : Option String)
  | stop
deriving Repr

/-- State reached after one lifecycle operation. -/
def applyCtl (s : ControllerState) : CtlOp → ControllerState
  | CtlOp.start token => (startSSEStream s token).1
  | CtlOp.stop => (stopSSEStream s).1

/-- Controller state on mount: null handle, no open connection. -/
def initController : ControllerState :=
  { eventSource := none, openConns := [], nextId := 0, store := emptyStore }

/-- State reached from the initial controller state after a sequence of
start and stop operations. -/
def runCtl (ops : List CtlOp) : ControllerState :=
  ops.foldl applyCtl initController

/-!
Store operation sequences, for the unread-counter invariant.
-/

/-- The three Store mutations reachable through the provider:
streamed-event ingest, single mark-read reconciliation, mark-all-read
reconciliation. -/
inductive StoreOp where
  | ingest (r : NotificationRecord)
  | markRead (id : Nat)
  | markAllRead
deriving DecidableEq, Repr

/-- State reached after one Store operation. -/
def applyOp (s : NotificationState) : StoreOp → NotificationState
  | StoreOp.ingest r => ingest s r
  | StoreOp.markRead id => markAsReadApply s id
  | StoreOp.markAllRead => markAllAsReadApply s

/-- State reached from the empty store after a sequence of Store
operations. -/
def runOps (ops : List StoreOp) : NotificationState :=
  ops.foldl applyOp emptyStore

/-- Number of records of the list that carry the given identifier and
are still UNREAD. -/
def matchedUnread (l : List NotificationRecord) (id : Nat) : Nat :=
  (l.filter (fun n => n.notificationId == id && n.status == Status.UNREAD)).length

/-- Side condition under which one Store operation preserves the
unread-counter invariant: an ingested record is UNREAD, and a mark-read
either targets exactly one UNREAD record or happens while nothing is
unread. -/
def opOkB (s : NotificationState) : StoreOp → Bool
  | StoreOp.ingest r => r.status == Status.UNREAD
  | StoreOp.markRead id =>
      matchedUnread s.notifications id == 1 || countUnread s.notifications == 0
  | StoreOp.markAllRead => true

/-- Side condition holding at every step of a Store operation
sequence. -/
def okRunB : NotificationState → List StoreOp → Bool
  | _, [] => true
  | s, op :: rest => opOkB s op && okRunB (applyOp s op) rest

/-!
Helper lemmas about unread counting.
-/

theorem countUnread_cons (n : NotificationRecord) (rest : List NotificationRecord) :
    countUnread (n :: rest)
      = countUnread rest + (if n.status = Status.UNREAD then 1 else 0) := by
  by_cases h : n.status = Status.UNREAD <;>
    simp [countUnread, List.filter_cons, h]

theorem matchedUnread_cons (n : NotificationRecord) (rest : List NotificationRecord)
    (id : Nat) :
    matchedUnread (n :: rest) id
      = matchedUnread rest id
        + (if n.notificationId = id ∧ n.status = Status.UNREAD then 1 else 0) := by
  by_cases h : n.notificationId = id ∧ n.status = Status.UNREAD <;>
    simp [matchedUnread, List.filter_cons, h]

theorem status_setReadIfMatch (id : Nat) (n : NotificationRecord) :
    (setReadIfMatch id n).status
      = (if n.notificationId = id then Status.READ else n.status) := by
  by_cases h : n.notificationId = id <;> simp [setReadIfMatch, h]

theorem countUnread_map_setRead (l : List NotificationRecord) :
    countUnread (l.map setRead) = 0 := by
  induction l with
  | nil => rfl
  | cons n rest ih =>
      rw [List.map_cons, countUnread_cons, ih]
      simp [setRead]

theorem countUnread_eq_map_add_matched (l : List NotificationRecord) (id : Nat) :
    countUnread l = countUnread (l.map (setReadIfMatch id)) + matchedUnread l id := by
  induction l with
  | nil => rfl
  | cons n rest ih =>
      rw [List.map_cons, countUnread_cons, countUnread_cons, matchedUnread_cons,
        status_setReadIfMatch]
      by_cases hid : n.notificationId = id <;>
        by_cases hst : n.status = Status.UNREAD <;>
        simp [hid, hst] <;> omega

theorem setRead_eq_self (n : NotificationRecord) (h : n.status = Status.READ) :
    setRead n = n := by
  cases n
  simp only [setRead]
  simp_all

theorem map_setReadIfMatch_eq_self (l : List NotificationRecord) (id : Nat)
    (h : ∀ n ∈ l, n.notificationId = id → n.status = Status.READ) :
    l.map (setReadIfMatch id) = l := by
  induction l with
  | nil => rfl
  | cons n rest ih =>
      have hn := h n (by simp)
      have hrest : ∀ m ∈ rest, m.notificationId = id → m.status = Status.READ :=
        fun m hm => h m (by simp [hm])
      simp only [List.map_cons, ih hrest]
      by_cases hid : n.notificationId == id
      · have : setReadIfMatch id n = n := by
          have := setRead_eq_self n (hn (by simpa using hid))
          simpa [setReadIfMatch, hid, setRead] using this
        rw [this]
      · simp [setReadIfMatch, hid]

theorem applyOp_preserves_inv (s : NotificationState) (op : StoreOp)
    (hInv : s.unreadCount = (countUnread s.notifications : Int))
    (hOk : opOkB s op = true) :
    (applyOp s op).unreadCount = (countUnread (applyOp s op).notifications : Int) := by
  cases op with
  | ingest r =>
      have hr : r.status = Status.UNREAD := by simpa [opOkB] using hOk
      show s.unreadCount + 1 = (countUnread (r :: s.notifications) : Int)
      rw [countUnread_cons, hr, if_pos rfl, hInv]
      push_cast
      ring
  | markRead id =>
      have key := countUnread_eq_map_add_matched s.notifications id
      simp only [opOkB, Bool.or_eq_true, beq_iff_eq] at hOk
      simp only [applyOp, markAsReadApply]
      rcases hOk with h1 | h0 <;> omega
  | markAllRead =>
      simp [applyOp, markAllAsReadApply, countUnread_map_setRead]

theorem foldl_applyOp_inv (ops : List StoreOp) :
    ∀ s : NotificationState,
      s.unreadCount = (countUnread s.notifications : Int) →
      okRunB s ops = true →
      (ops.foldl applyOp s).unreadCount
        = (countUnread (ops.foldl applyOp s).notifications : Int) := by
  induction ops with
  | nil => intro s h _; simpa using h
  | cons op rest ih =>
      intro s hInv hOk
      simp only [okRunB, Bool.and_eq_true] at hOk
      simpa using ih (applyOp s op) (applyOp_preserves_inv s op hInv hOk.1) hOk.2

theorem okRunB_append_left (pre suf : List StoreOp) :
    ∀ s, okRunB s (pre ++ suf) = true → okRunB s pre = true := by
  induction pre with
  | nil => intro s _; rfl
  | cons op rest ih =>
      intro s h
      simp only [List.cons_append, okRunB, Bool.and_eq_true] at h ⊢
      exact ⟨h.1, ih _ h.2⟩

/-!
Helper lemmas for the SSE lifecycle controller.
-/

/-- The stored handle determines the open connections: none are open
when the ref is null, exactly the stored one is open otherwise. -/
def handleInv (s : ControllerState) : Prop :=
  s.openConns = (match s.eventSource with
    | none => []
    | some h => [h])

theorem stopSSEStream_inv (s : ControllerState) (h : handleInv s) :
    handleInv (stopSSEStream s).1 := by
  cases hs : s.eventSource with
  | none => simpa [stopSSEStream, hs] using h
  | some hd =>
      simp only [handleInv, hs] at h
      simp [stopSSEStream, hs, handleInv, h]

theorem stopSSEStream_eventSource (s : ControllerState) :
    (stopSSEStream s).1.eventSource = none := by
  cases hs : s.eventSource <;> simp [stopSSEStream, hs]

theorem startSSEStream_inv (s : ControllerState) (tok : Option String)
    (h : handleInv s) : handleInv (startSSEStream s tok).1 := by
  have h1 := stopSSEStream_inv s h
  have h2 := stopSSEStream_eventSource s
  cases tok with
  | none => simpa [startSSEStream] using h1
  | some t =>
      have h3 : (stopSSEStream s).1.openConns = [] := by
        simpa [handleInv, h2] using h1
      simp [startSSEStream, handleInv, h3]

theorem applyCtl_inv (s : ControllerState) (op : CtlOp) (h : handleInv s) :
    handleInv (applyCtl s op) := by
  cases op with
  | start tok => exact startSSEStream_inv s tok h
  | stop => exact stopSSEStream_inv s h

theorem foldl_applyCtl_inv (ops : List CtlOp) :
    ∀ s, handleInv s → handleInv (ops.foldl applyCtl s) := by
  induction ops with
  | nil => intro s h; simpa using h
  | cons op rest ih =>
      intro s h
      simpa using ih (applyCtl s op) (applyCtl_inv s op h)

/-!
Concrete records and states used by counterexamples and witnesses.
-/

/-- A sample UNREAD record. -/
def recA : NotificationRecord :=
  { notificationId := 1, message := "m", priority := "NORMAL",
    actionRequired := false, status := Status.UNREAD }

/-- A store holding one UNREAD record and a consistent counter. -/
def storeOneUnread : NotificationState :=
  { notifications := [recA], unreadCount := 1 }

/-!
Claim theorems.
-/

/-- C1 counterexample: from the empty store, ingesting one UNREAD
record and then reconciling markRead with the unmatched identifier 2
leaves the counter at 0 while one record is still UNREAD, so the
invariant does not hold after every operation of every sequence. -/
theorem c1_counterexample :
    (runOps [StoreOp.ingest recA, StoreOp.markRead 2]).unreadCount
      ≠ (countUnread (runOps [StoreOp.ingest recA,
          StoreOp.markRead 2]).notifications : Int) := by
  decide

/-- C1 (amended): for every sequence of Store operations from the empty
Store in which each ingested record has status UNREAD and each markRead
either targets an identifier matched by exactly one UNREAD record or
runs while nothing is unread, the unread counter equals the number of
UNREAD records in the collection after every operation, that is after
every prefix of the sequence. -/
theorem c1_unread_counter_invariant (ops pre suf : List StoreOp)
    (hOk : okRunB emptyStore ops = true) (hsplit : ops = pre ++ suf) :
    (runOps pre).unreadCount
      = (countUnread (runOps pre).notifications : Int) := by
  subst hsplit
  exact foldl_applyOp_inv pre emptyStore (by decide)
    (okRunB_append_left pre suf emptyStore hOk)

/-- Witness for C1: the side condition holds for the sequence ingest
recA, markRead 1, markAllRead, and the invariant holds after its first
two operations. -/
theorem c1_unread_counter_invariant_witness :
    (runOps [StoreOp.ingest recA, StoreOp.markRead 1]).unreadCount
      = (countUnread (runOps [StoreOp.ingest recA,
          StoreOp.markRead 1]).notifications : Int) :=
  c1_unread_counter_invariant
    [StoreOp.ingest recA, StoreOp.markRead 1, StoreOp.markAllRead]
    [StoreOp.ingest recA, StoreOp.markRead 1]
    [StoreOp.markAllRead]
    (by decide) (by decide)

/-- C2 counterexample: in a store holding one UNREAD record with
identifier 1 and counter 1, the markRead reconciliation for the
unmatched identifier 2 is not a no-op: the counter drops from 1 to 0. -/
theorem c2_counterexample :
    (storeOneUnread.notifications.all
        (fun n => ! (n.notificationId == 2))) = true ∧
    (markAsReadApply storeOneUnread 2).unreadCount
      ≠ storeOneUnread.unreadCount := by
  decide

/-- C2 (amended): for every store and every identifier such that each
record carrying it is already READ (in particular an identifier carried
by no record), the markRead reconciliation leaves the collection
unchanged but still lowers the counter to max 0 (counter - 1); the
counter is therefore unchanged only when it is already zero. -/
theorem c2_markRead_miss (s : NotificationState) (id : Nat)
    (h : ∀ n ∈ s.notifications, n.notificationId = id → n.status = Status.READ) :
    (markAsReadApply s id).notifications = s.notifications ∧
    (markAsReadApply s id).unreadCount = max 0 (s.unreadCount - 1) :=
  ⟨by simp [markAsReadApply, map_setReadIfMatch_eq_self s.notifications id h],
   rfl⟩

/-- Witness for C2: the identifier 2 matches no record of
storeOneUnread, and the amended conclusion holds there. -/
theorem c2_markRead_miss_witness :
    (markAsReadApply storeOneUnread 2).notifications
      = storeOneUnread.notifications ∧
    (markAsReadApply storeOneUnread 2).unreadCount
      = max 0 (storeOneUnread.unreadCount - 1) :=
  c2_markRead_miss storeOneUnread 2 (by decide)

/-- C3: when the backend confirm call of the Synchronizer markAsRead
fails, the store is returned unchanged and the error flag is raised;
the local reconciliation is applied exactly when the backend call
succeeds. -/
theorem c3_markAsRead_failure_leaves_store (s : NotificationState) (id : Nat) :
    markAsRead s id false = (s, true) ∧
    markAsRead s id true = (markAsReadApply s id, false) :=
  ⟨rfl, rfl⟩

/-- C4: the mark-all-read reconciliation always yields a zero counter
and a collection with no UNREAD record, and every record keeps its
identifier, message, priority and actionRequired fields while its
status becomes READ. -/
theorem c4_markAllRead_clears (s : NotificationState) :
    (markAllAsReadApply s).unreadCount = 0 ∧
    countUnread (markAllAsReadApply s).notifications = 0 ∧
    List.Forall₂
      (fun old new =>
        new.notificationId = old.notificationId ∧
        new.message = old.message ∧
        new.priority = old.priority ∧
        new.actionRequired = old.actionRequired ∧
        new.status = Status.READ)
      s.notifications (markAllAsReadApply s).notifications := by
  refine ⟨rfl, countUnread_map_setRead s.notifications, ?_⟩
  simp only [markAllAsReadApply]
  rw [List.forall₂_map_right_iff, List.forall₂_same]
  intro n _
  simp [setRead]

/-- C5: a successful snapshot load replaces the collection with exactly
the fetched page, whatever the prior store was, and recomputes the
counter as the number of UNREAD records of the page; no error is
reported. -/
theorem c5_loadSnapshot_full_replace (s : NotificationState)
    (page : List NotificationRecord) :
    (loadNotifications s (Except.ok (SnapshotData.paginated page))).1.notifications
      = page ∧
    (loadNotifications s (Except.ok (SnapshotData.paginated page))).1.unreadCount
      = ((page.filter (fun n => n.status == Status.UNREAD)).length : Int) ∧
    (loadNotifications s (Except.ok (SnapshotData.paginated page))).2 = false :=
  ⟨rfl, rfl, rfl⟩

/-- C6: ingest places the incoming record at the head of the
collection, keeps every prior record in its relative order, and raises
the counter by exactly one, for every incoming record, also one whose
status is READ or whose identifier already occurs. -/
theorem c6_ingest_prepends (s : NotificationState) (r : NotificationRecord) :
    (ingest s r).notifications = r :: s.notifications ∧
    (ingest s r).unreadCount = s.unreadCount + 1 :=
  ⟨rfl, rfl⟩

/-- C7: a failed snapshot fetch reports the error and returns the store
exactly as it was, collection and counter included. -/
theorem c7_snapshot_failure_keeps_store (s : NotificationState) :
    loadNotifications s (Except.error ()) = (s, true) :=
  rfl

/-- C8: the per-message stream handler delivers a well-formed payload
to the callback exactly once without logging, and logs and drops a
malformed payload without invoking the callback and without letting any
exception escape. -/
theorem c8_stream_message_handler :
    streamOnMessage none = ([], true) ∧
    ∀ r : NotificationRecord, streamOnMessage (some r) = ([r], false) :=
  ⟨rfl, fun _ => rfl⟩

/-- C9: after every sequence of stream start and stop operations from
the initial controller state, at most one connection is open, and the
open connections are exactly the stored handle. -/
theorem c9_at_most_one_live_session (ops : List CtlOp) :
    (runCtl ops).openConns.length ≤ 1 ∧ handleInv (runCtl ops) := by
  have h : handleInv (runCtl ops) :=
    foldl_applyCtl_inv ops initController rfl
  refine ⟨?_, h⟩
  rw [handleInv] at h
  cases he : (runCtl ops).eventSource <;> simp [he] at h <;> simp [h]

/-- C10: a stream start issued with no credential token in storage
leaves the stored handle null, opens no connection, does not invoke the
error callback (the only events are the closing of a previously stored
handle), and leaves the notification store untouched. -/
theorem c10_start_without_token (s : ControllerState) :
    (startSSEStream s none).1.eventSource = none ∧
    (startSSEStream s none).1.store = s.store ∧
    (startSSEStream s none).2
      = (match s.eventSource with
         | none => ([] : List SSEEvent)
         | some h => [SSEEvent.closed h]) := by
  cases hs : s.eventSource <;>
    simp [startSSEStream, stopSSEStream, hs]
